import Mathlib

/-!
Verification of the CV Compilation Service (src/main.py).

The service is a sequential orchestration of external network calls
(database RPC, snippet create/delete on the gist host, compiler fetch)
wrapped in HTTP handlers.  We embed it shallowly: each invocation is run
against a `World` recording the outcome of every outbound call, and each
embedded function returns its Python result (a value or a raised
exception) together with the ordered trace of outbound calls it issued.
-/

/-- A raised Python exception: either a FastAPI `HTTPException` with a
status code and detail string, or any other exception carrying its
message (e.g. a `requests` timeout). -/
inductive Exc where
  | http (status : Nat) (detail : String)
  | other (msg : String)
  deriving DecidableEq, Repr

/-- `str(e)` for an exception, following
`starlette.exceptions.HTTPException.__str__` which renders
`f"\x7bstatus_code\x7d: \x7bdetail\x7d"`, and the message itself for other
exceptions. -/
def excStr : Exc → String
  | .http s d => toString s ++ ": " ++ d
  | .other m => m

/-- Outcome of one outbound call: a returned value or a raised exception. -/
inductive Outcome (α : Type) where
  | ok (a : α)
  | exc (e : Exc)
  deriving DecidableEq, Repr

/-- Response to the gist-creation POST: HTTP status, body text, and the
JSON fields the code reads on success (`id` and the raw-content URL of
`document.tex`). -/
structure GistCreateResp where
  status : Nat
  text : String
  id : String
  rawUrl : String
  deriving DecidableEq, Repr

/-- Response to the raw-content verification GET: only its status code is
inspected. -/
structure CheckResp where
  status : Nat
  deriving DecidableEq, Repr

/-- Response to the compiler GET: status, body bytes (`.content`) and body
text (`.text`). -/
structure CompileResp where
  status : Nat
  content : List Nat
  text : String
  deriving DecidableEq, Repr

/-- Outcomes of the outbound calls one invocation of
`compile_latex_to_pdf` may issue. -/
structure World where
  gistCreate : Outcome GistCreateResp
  rawCheck : Outcome CheckResp
  compileCall : Outcome CompileResp
  deleteCall : Outcome Nat
  deriving DecidableEq, Repr

/-- An outbound side effect, in issue order: gist creation POST, the fixed
`time.sleep`, raw-content verification GET, compiler GET, gist DELETE. -/
inductive Event where
  | postGist (latex : String)
  | sleepEv (secs : Nat)
  | getRaw (url : String)
  | getCompile (url : String)
  | deleteGist (id : String)
  deriving DecidableEq, Repr

/-- Python truthiness of an optional string: `None` and the empty string
are falsy (`not GITHUB_TOKEN`, `not response.data`). -/
def truthy : Option String → Bool
  | none => false
  | some s => !s.isEmpty

/-- The compiler endpoint URL built from the raw-content URL. -/
def compileUrl (rawUrl : String) : String :=
  "https://latexonline.cc/compile?url=" ++ rawUrl

/-- The `try` block of `compile_latex_to_pdf` (main.py lines 73-92):
sleep, verify the raw URL, request compilation, return the PDF bytes. -/
def tryBody (g : GistCreateResp) (w : World) : Except Exc (List Nat) × List Event :=
  match w.rawCheck with
  | .exc e => (.error e, [.sleepEv 2, .getRaw g.rawUrl])
  | .ok c =>
    if c.status ≠ 200 then
      (.error (.http 500 ("Gist no accesible: " ++ toString c.status)),
       [.sleepEv 2, .getRaw g.rawUrl])
    else
      match w.compileCall with
      | .exc e =>
        (.error e, [.sleepEv 2, .getRaw g.rawUrl, .getCompile (compileUrl g.rawUrl)])
      | .ok p =>
        if p.status ≠ 200 then
          (.error (.http 400 ("LaTeX compilation failed. Status: " ++ toString p.status ++ ".")),
           [.sleepEv 2, .getRaw g.rawUrl, .getCompile (compileUrl g.rawUrl)])
        else
          (.ok p.content, [.sleepEv 2, .getRaw g.rawUrl, .getCompile (compileUrl g.rawUrl)])

/-- `compile_latex_to_pdf` (main.py lines 31-99).  Fails fast when the
token is unset, creates the gist, then runs the `try` body; the
`finally` block issues the gist DELETE unconditionally, and — per Python
semantics — an exception raised by the DELETE call replaces whatever the
`try` block produced, while a returned DELETE response is ignored. -/
def compile_latex_to_pdf (token : Option String) (latex_code : String) (w : World) :
    Except Exc (List Nat) × List Event :=
  if truthy token = false then
    (.error (.http 500 "GITHUB_TOKEN no configurado"), [])
  else
    match w.gistCreate with
    | .exc e => (.error e, [.postGist latex_code])
    | .ok g =>
      if g.status ≠ 201 then
        (.error (.http 500 ("Error creando Gist: " ++ g.text)), [.postGist latex_code])
      else
        ((match w.deleteCall with
          | .ok _ => (tryBody g w).1
          | .exc e => .error e),
         .postGist latex_code :: (tryBody g w).2 ++ [.deleteGist g.id])

/-- The streaming PDF response built by the PDF-producing handlers. -/
structure StreamResp where
  content : List Nat
  media_type : String
  disposition : String
  deriving DecidableEq, Repr

/-- Body of the `generate_cv` handler before its `except` clause
(main.py lines 131-149): run the RPC, reject an empty result, compile,
and wrap the bytes in a streaming response. -/
def generate_cv_body (token : Option String) (rpc : Outcome (Option String)) (w : World) :
    Except Exc StreamResp × List Event :=
  match rpc with
  | .exc e => (.error e, [])
  | .ok data =>
    if truthy data = false then
      (.error (.http 500 "La función get_latex() no devolvió datos"), [])
    else
      match compile_latex_to_pdf token (data.getD "") w with
      | (.ok content, tr) =>
        (.ok ⟨content, "application/pdf", "attachment; filename=CV.pdf"⟩, tr)
      | (.error e, tr) => (.error e, tr)

/-- `generate_cv` (main.py lines 128-152): any exception escaping the body
is re-raised as `HTTPException(500, str(e))`. -/
def generate_cv (token : Option String) (rpc : Outcome (Option String)) (w : World) :
    Except Exc StreamResp × List Event :=
  match generate_cv_body token rpc w with
  | (.ok r, tr) => (.ok r, tr)
  | (.error e, tr) => (.error (.http 500 (excStr e)), tr)

/-- The JSON value returned by `health_check`: a status field plus the
optional connectivity, length and message fields. -/
structure HealthResult where
  status : String
  supabase : Option String
  latex_length : Option Nat
  message : Option String
  deriving DecidableEq, Repr

/-- `health_check` (main.py lines 115-126): reports connectivity and a
length metric, catching every RPC exception into an error-status value. -/
def health_check (rpc : Outcome (Option String)) : Except Exc HealthResult :=
  match rpc with
  | .ok data =>
    .ok ⟨"ok", some "connected",
         some (if truthy data then (data.getD "").length else 0), none⟩
  | .exc e => .ok ⟨"error", none, none, some (excStr e)⟩

/-- The fixed minimal LaTeX document used by `test_compile`
(main.py lines 157-160). -/
def simple_latex : String :=
  "\\documentclass\x7barticle\x7d\n\\begin\x7bdocument\x7d\nHello World!\n\\end\x7bdocument\x7d"

/-- The value returned by `test_compile`: a streaming PDF on success, or a
plain JSON object carrying the error string. -/
inductive TestResult where
  | pdf (content : List Nat) (media_type : String) (disposition : String)
  | errJson (error : String)
  deriving DecidableEq, Repr

/-- `test_compile` (main.py lines 154-170): compiles the fixed document;
exceptions are caught and returned as a normal JSON body. -/
def test_compile (token : Option String) (w : World) : Except Exc TestResult × List Event :=
  match compile_latex_to_pdf token simple_latex w with
  | (.ok content, tr) =>
    (.ok (.pdf content "application/pdf" "attachment; filename=test.pdf"), tr)
  | (.error e, tr) => (.ok (.errJson (excStr e)), tr)

/-- The value returned by `debug_latex`: the raw RPC data with its Python
type name and length on success, or a failure record with the error
string. -/
inductive DebugResult where
  | success (data : Option String) (data_type : String) (length : Nat)
  | failure (error : String)
  deriving DecidableEq, Repr

/-- `debug_latex` (main.py lines 172-185): returns the RPC result and its
inferred type and length; exceptions are caught and returned as a normal
JSON body with `success = false`. -/
def debug_latex (rpc : Outcome (Option String)) : Except Exc DebugResult :=
  match rpc with
  | .ok data =>
    .ok (.success data
      (match data with | none => "NoneType" | some _ => "str")
      (if truthy data then (data.getD "").length else 0))
  | .exc e => .ok (.failure (excStr e))

/-- Whether the character list `t` is a prefix of `s`. -/
def isPre : List Char → List Char → Bool
  | [], _ => true
  | _ :: _, [] => false
  | a :: t, b :: s => a == b && isPre t s

/-- Whether the character list `t` occurs contiguously inside `s`. -/
def hasSub (t : List Char) : List Char → Bool
  | [] => isPre t []
  | b :: s => isPre t (b :: s) || hasSub t s

/-- Whether `t` occurs as a substring of `s`. -/
def strHasSub (s t : String) : Bool :=
  hasSub t.data s.data

/-- Replace the delete-call outcome of a world. -/
def withDelete (w : World) (d : Outcome Nat) : World :=
  ⟨w.gistCreate, w.rawCheck, w.compileCall, d⟩

/-- A world in which every outbound call succeeds and the compiler returns
the bytes of a minimal PDF. -/
def wAllOk : World :=
  ⟨.ok ⟨201, "", "gid1", "https://r"⟩, .ok ⟨200⟩, .ok ⟨200, [37, 80, 68, 70], "pdf"⟩, .ok 204⟩

/-- A world in which the raw-content verification GET returns 404. -/
def wCheck404 : World :=
  ⟨.ok ⟨201, "", "gid1", "https://r"⟩, .ok ⟨404⟩, .ok ⟨200, [37, 80, 68, 70], "pdf"⟩, .ok 204⟩

/-- A world in which the compiler responds with status 500 and the body
text "boom". -/
def wCompile500 : World :=
  ⟨.ok ⟨201, "", "gid1", "https://r"⟩, .ok ⟨200⟩, .ok ⟨500, [98, 111, 111, 109], "boom"⟩, .ok 204⟩

/-- The all-success world except that the gist DELETE call raises a
timeout exception. -/
def wDeleteRaise : World :=
  withDelete wAllOk (.exc (.other "ReadTimeout"))

lemma isPre_self_append (t post : List Char) : isPre t (t ++ post) = true := by
  induction t with
  | nil => rfl
  | cons a t ih => simp [isPre, ih]

lemma hasSub_here (t s : List Char) (h : isPre t s = true) : hasSub t s = true := by
  cases s with
  | nil => simpa [hasSub] using h
  | cons b s => simp [hasSub, h]

lemma hasSub_append (t pre post : List Char) : hasSub t (pre ++ (t ++ post)) = true := by
  induction pre with
  | nil => exact hasSub_here t (t ++ post) (isPre_self_append t post)
  | cons a pre ih => simp [hasSub, ih]

lemma strHasSub_append (a t b : String) : strHasSub (a ++ (t ++ b)) t = true := by
  simp [strHasSub, String.data_append, hasSub_append]

lemma compile_spec (token : Option String) (latex : String) (w : World) (g : GistCreateResp)
    (ht : truthy token = true) (hg : w.gistCreate = .ok g) (h201 : g.status = 201) :
    compile_latex_to_pdf token latex w =
      ((match w.deleteCall with | .ok _ => (tryBody g w).1 | .exc e => .error e),
       Event.postGist latex :: (tryBody g w).2 ++ [Event.deleteGist g.id]) := by
  simp [compile_latex_to_pdf, hg, ht, h201]

/-- C1: whenever the token is set and gist creation returns 201, the gist
DELETE call is issued on every exit path of `compile_latex_to_pdf` — the
world is arbitrary, so this covers successful compilation, verification
failure, compilation failure, and even exceptions raised mid-way. -/
theorem c1_snippet_deletion_on_every_exit_path (token : Option String) (latex : String)
    (w : World) (g : GistCreateResp)
    (ht : truthy token = true) (hg : w.gistCreate = .ok g) (h201 : g.status = 201) :
    Event.deleteGist g.id ∈ (compile_latex_to_pdf token latex w).2 := by
  rw [compile_spec token latex w g ht hg h201]
  simp

/-- C1 witness: with the token set and a verification failure in
`wCheck404`, the DELETE call for gist `gid1` is still issued. -/
theorem c1_snippet_deletion_witness :
    truthy (some "t") = true ∧
    Event.deleteGist "gid1" ∈ (compile_latex_to_pdf (some "t") "x" wCheck404).2 :=
  ⟨by decide,
   c1_snippet_deletion_on_every_exit_path (some "t") "x" wCheck404
     ⟨201, "", "gid1", "https://r"⟩ (by decide) rfl rfl⟩

/-- C2: when the GITHUB_TOKEN credential is unset (or empty), every
invocation of `compile_latex_to_pdf` fails with HTTP 500 and an empty
trace — no outbound call is made. -/
theorem c2_missing_token_fails_before_any_call (token : Option String) (latex : String)
    (w : World) (h : truthy token = false) :
    compile_latex_to_pdf token latex w =
      (.error (.http 500 "GITHUB_TOKEN no configurado"), []) := by
  simp [compile_latex_to_pdf, h]

/-- C2 witness: with the token absent, the all-success world still sees a
configuration error and no outbound calls. -/
theorem c2_missing_token_witness :
    truthy none = false ∧
    compile_latex_to_pdf none "x" wAllOk =
      (.error (.http 500 "GITHUB_TOKEN no configurado"), []) :=
  ⟨by decide, c2_missing_token_fails_before_any_call none "x" wAllOk (by decide)⟩

/-- C3 counterexample: the compiler responds 500 with body "boom", yet the
error detail is exactly "LaTeX compilation failed. Status: 500." — it
carries the status but no copy of the response body, truncated or
otherwise. -/
theorem c3_detail_omits_body_counterexample :
    wCompile500.compileCall = .ok ⟨500, [98, 111, 111, 109], "boom"⟩ ∧
    (compile_latex_to_pdf (some "t") "x" wCompile500).1 =
      .error (.http 400 "LaTeX compilation failed. Status: 500.") ∧
    strHasSub "LaTeX compilation failed. Status: 500." "boom" = false :=
  ⟨rfl, rfl, by decide⟩

/-- C3 amended: for every non-success compiler response reached on the
compilation path, the function fails with a compilation error (HTTP 400)
whose detail string includes the response status — and nothing of the
response body. -/
theorem c3_compilation_error_detail_has_status (token : Option String) (latex : String)
    (w : World) (g : GistCreateResp) (p : CompileResp) (s : Nat)
    (ht : truthy token = true) (hg : w.gistCreate = .ok g) (h201 : g.status = 201)
    (hrc : w.rawCheck = .ok ⟨200⟩) (hcp : w.compileCall = .ok p) (hps : p.status ≠ 200)
    (hd : w.deleteCall = .ok s) :
    (compile_latex_to_pdf token latex w).1 =
      .error (.http 400 ("LaTeX compilation failed. Status: " ++ toString p.status ++ ".")) ∧
    strHasSub ("LaTeX compilation failed. Status: " ++ toString p.status ++ ".")
      (toString p.status) = true := by
  constructor
  · rw [compile_spec token latex w g ht hg h201]
    simp [tryBody, hrc, hcp, hps, hd]
  · rw [String.append_assoc]
    exact strHasSub_append _ _ _

/-- C3 amended witness: the 500-status compiler response yields the 400
compilation error whose detail contains "500". -/
theorem c3_compilation_error_detail_witness :
    (500 : Nat) ≠ 200 ∧
    (compile_latex_to_pdf (some "t") "x" wCompile500).1 =
      .error (.http 400 ("LaTeX compilation failed. Status: " ++ toString (500 : Nat) ++ ".")) ∧
    strHasSub ("LaTeX compilation failed. Status: " ++ toString (500 : Nat) ++ ".")
      (toString (500 : Nat)) = true :=
  ⟨by decide,
   c3_compilation_error_detail_has_status (some "t") "x" wCompile500
     ⟨201, "", "gid1", "https://r"⟩ ⟨500, [98, 111, 111, 109], "boom"⟩ 204
     (by decide) rfl rfl rfl rfl (by decide) rfl⟩

/-- C4 counterexample: two worlds differing only in the delete outcome —
when the DELETE call raises, the successful compilation result is
replaced by the delete exception, so the result of the orchestration
function is not unchanged under everything the delete call may raise. -/
theorem c4_delete_exception_changes_result_counterexample :
    (compile_latex_to_pdf (some "t") "x" wAllOk).1 = .ok [37, 80, 68, 70] ∧
    wDeleteRaise = withDelete wAllOk (.exc (.other "ReadTimeout")) ∧
    (compile_latex_to_pdf (some "t") "x" wDeleteRaise).1 = .error (.other "ReadTimeout") :=
  ⟨rfl, rfl, rfl⟩

/-- C4 amended: whatever response the DELETE call returns (any status
code, as long as it does not raise), the entire result of
`compile_latex_to_pdf` — value, error and trace — is unchanged. -/
theorem c4_delete_response_never_surfaced (token : Option String) (latex : String)
    (w : World) (s t : Nat) :
    compile_latex_to_pdf token latex (withDelete w (.ok s)) =
      compile_latex_to_pdf token latex (withDelete w (.ok t)) := rfl

/-- C5: when the RPC returns an empty (falsy) result, `generate_cv` fails
with the upstream data error, re-wrapped at the handler boundary as
HTTP 500, and issues no outbound call at all. -/
theorem c5_empty_rpc_stops_generate_cv (token : Option String) (w : World)
    (data : Option String) (h : truthy data = false) :
    generate_cv token (.ok data) w =
      (.error (.http 500 (excStr (.http 500 "La función get_latex() no devolvió datos"))),
       []) := by
  simp [generate_cv, generate_cv_body, h]

/-- C5 witness: an RPC returning `None` makes `generate_cv` fail with the
wrapped upstream data error and an empty trace. -/
theorem c5_empty_rpc_witness :
    truthy none = false ∧
    generate_cv (some "t") (.ok none) wAllOk =
      (.error (.http 500 "500: La función get_latex() no devolvió datos"), []) :=
  ⟨by decide, c5_empty_rpc_stops_generate_cv (some "t") wAllOk none (by decide)⟩

/-- C6: `health_check` never raises — for every RPC outcome, including a
raised exception, it returns a structured value whose status field is
"ok" or "error". -/
theorem c6_health_never_raises (rpc : Outcome (Option String)) :
    ∃ v, health_check rpc = .ok v ∧ (v.status = "ok" ∨ v.status = "error") := by
  cases rpc with
  | ok data => exact ⟨_, rfl, Or.inl rfl⟩
  | exc e => exact ⟨_, rfl, Or.inr rfl⟩

/-- On a successful (status 200) verification fetch, the try-block trace
is sleep, verification GET, then compiler GET, whatever the compiler
call then does. -/
lemma tryBody_trace_200 (g : GistCreateResp) (w : World) (c : CheckResp)
    (hc : w.rawCheck = .ok c) (hcs : c.status = 200) :
    (tryBody g w).2 =
      [.sleepEv 2, .getRaw g.rawUrl, .getCompile (compileUrl g.rawUrl)] := by
  unfold tryBody
  rw [hc]
  simp [hcs]
  cases w.compileCall with
  | exc e => simp
  | ok p => by_cases hp : p.status = 200 <;> simp [hp]

/-- C7: the compiler GET appears in the trace only when the verification
fetch returned 200, and then only in the position after the fixed sleep
and the verification GET; when verification does not return 200 the
function fails (with the upstream 500 error whenever the DELETE call
returns normally) and no compiler call is ever issued. -/
theorem c7_compiler_only_after_successful_check (token : Option String) (latex : String) (w : World) (g : GistCreateResp)
    (ht : truthy token = true) (hg : w.gistCreate = .ok g) (h201 : g.status = 201) :
    (∀ c, w.rawCheck = .ok c → c.status ≠ 200 →
      ((∀ u, Event.getCompile u ∉ (compile_latex_to_pdf token latex w).2) ∧
       (∃ e, (compile_latex_to_pdf token latex w).1 = .error e) ∧
       (∀ s, w.deleteCall = .ok s →
         (compile_latex_to_pdf token latex w).1 =
           .error (.http 500 ("Gist no accesible: " ++ toString c.status))))) ∧
    (∀ u, Event.getCompile u ∈ (compile_latex_to_pdf token latex w).2 →
      u = compileUrl g.rawUrl ∧
      ∃ c, w.rawCheck = .ok c ∧ c.status = 200 ∧
        (compile_latex_to_pdf token latex w).2 =
          [Event.postGist latex, Event.sleepEv 2, Event.getRaw g.rawUrl,
           Event.getCompile (compileUrl g.rawUrl), Event.deleteGist g.id]) := by
  have hs := compile_spec token latex w g ht hg h201
  constructor
  · intro c hc hcs
    have ht1 : tryBody g w =
        (.error (.http 500 ("Gist no accesible: " ++ toString c.status)),
         [.sleepEv 2, .getRaw g.rawUrl]) := by
      simp [tryBody, hc, hcs]
    refine ⟨?_, ?_, ?_⟩
    · intro u
      rw [hs, ht1]
      simp
    · cases hd : w.deleteCall with
      | ok s =>
        exact ⟨.http 500 ("Gist no accesible: " ++ toString c.status),
          by rw [hs]; simp [hd, ht1]⟩
      | exc e => exact ⟨e, by rw [hs]; simp [hd]⟩
    · intro s hd
      rw [hs]
      simp [hd, ht1]
  · intro u hu
    rw [hs] at hu
    cases hc : w.rawCheck with
    | exc e =>
      have : (tryBody g w).2 = [.sleepEv 2, .getRaw g.rawUrl] := by simp [tryBody, hc]
      rw [this] at hu
      simp at hu
    | ok c =>
      by_cases hcs : c.status = 200
      · have htr := tryBody_trace_200 g w c hc hcs
        rw [htr] at hu
        simp at hu
        exact ⟨hu, c, rfl, hcs, by rw [hs, htr]; rfl⟩
      · have : (tryBody g w).2 = [.sleepEv 2, .getRaw g.rawUrl] := by
          simp [tryBody, hc, hcs]
        rw [this] at hu
        simp at hu

/-- C7 witness: with verification returning 404, the function fails with
the upstream error and the trace holds no compiler call. -/
theorem c7_compiler_gated_witness :
    (compile_latex_to_pdf (some "t") "x" wCheck404).1 =
      .error (.http 500 "Gist no accesible: 404") ∧
    (∀ u, Event.getCompile u ∉ (compile_latex_to_pdf (some "t") "x" wCheck404).2) := by
  have h := c7_compiler_only_after_successful_check (some "t") "x" wCheck404
    ⟨201, "", "gid1", "https://r"⟩ (by decide) rfl rfl
  have h1 := h.1 ⟨404⟩ rfl (by decide)
  exact ⟨h1.2.2 204 rfl, h1.1⟩

/-- Inversion: `compile_latex_to_pdf` returns bytes only when the compiler
call returned status 200, and the bytes are exactly that response body. -/
lemma compile_ok_content (token : Option String) (latex : String) (w : World) (bs : List Nat)
    (h : (compile_latex_to_pdf token latex w).1 = .ok bs) :
    ∃ p, w.compileCall = .ok p ∧ p.status = 200 ∧ bs = p.content := by
  by_cases ht : truthy token = false
  · simp [compile_latex_to_pdf, ht] at h
  · have ht' : truthy token = true := by revert ht; cases truthy token <;> simp
    cases hg : w.gistCreate with
    | exc e => simp [compile_latex_to_pdf, ht', hg] at h
    | ok g =>
      by_cases h201 : g.status = 201
      · rw [compile_spec token latex w g ht' hg h201] at h
        cases hd : w.deleteCall with
        | exc e => rw [hd] at h; simp at h
        | ok s =>
          rw [hd] at h
          simp only at h
          cases hc : w.rawCheck with
          | exc e => simp [tryBody, hc] at h
          | ok c =>
            by_cases hcs : c.status = 200
            · cases hcc : w.compileCall with
              | exc e => simp [tryBody, hc, hcs, hcc] at h
              | ok p =>
                by_cases hp : p.status = 200
                · have hbs : bs = p.content := by
                    simp [tryBody, hc, hcs, hcc, hp] at h
                    exact h.symm
                  exact ⟨p, rfl, hp, hbs⟩
                · simp [tryBody, hc, hcs, hcc, hp] at h
            · simp [tryBody, hc, hcs] at h
      · simp [compile_latex_to_pdf, ht', hg, h201] at h

/-- Inversion: a streaming result of `generate_cv` carries exactly the
bytes some invocation of `compile_latex_to_pdf` returned. -/
lemma generate_cv_ok (token : Option String) (rpc : Outcome (Option String)) (w : World)
    (r : StreamResp) (h : (generate_cv token rpc w).1 = .ok r) :
    ∃ lc, (compile_latex_to_pdf token lc w).1 = .ok r.content := by
  cases rpc with
  | exc e => simp [generate_cv, generate_cv_body] at h
  | ok data =>
    by_cases hd : truthy data = false
    · simp [generate_cv, generate_cv_body, hd] at h
    · cases hcp : compile_latex_to_pdf token (data.getD "") w with
      | mk res tr =>
        cases res with
        | ok content =>
          have hr : r = ⟨content, "application/pdf", "attachment; filename=CV.pdf"⟩ := by
            simp [generate_cv, generate_cv_body, hd, hcp] at h
            exact h.symm
          exact ⟨data.getD "", by rw [hcp, hr]⟩
        | error e => simp [generate_cv, generate_cv_body, hd, hcp] at h

/-- Inversion: a PDF result of `test_compile` carries exactly the bytes
`compile_latex_to_pdf` returned for the fixed document. -/
lemma test_compile_pdf_ok (token : Option String) (w : World)
    (c : List Nat) (m d : String)
    (h : (test_compile token w).1 = .ok (.pdf c m d)) :
    (compile_latex_to_pdf token simple_latex w).1 = .ok c := by
  cases hcp : compile_latex_to_pdf token simple_latex w with
  | mk res tr =>
    cases res with
    | ok content =>
      have := by simpa [test_compile, hcp] using h
      simp [this.1]
    | error e => simp [test_compile, hcp] at h

/-- C8: on successful compilation, the byte sequence either PDF-producing
handler returns is exactly the body of the compiler response, unmodified. -/
theorem c8_pdf_passthrough (token : Option String) (rpc : Outcome (Option String)) (w : World)
    (p : CompileResp) (hp : w.compileCall = .ok p) :
    (∀ r, (generate_cv token rpc w).1 = .ok r → r.content = p.content) ∧
    (∀ c m d, (test_compile token w).1 = .ok (.pdf c m d) → c = p.content) := by
  constructor
  · intro r h
    obtain ⟨lc, hlc⟩ := generate_cv_ok token rpc w r h
    obtain ⟨q, hcc, hqs, hbs⟩ := compile_ok_content token lc w r.content hlc
    injection hp.symm.trans hcc with hq
    rw [hbs, ← hq]
  · intro c m d h
    have hlc := test_compile_pdf_ok token w c m d h
    obtain ⟨q, hcc, hqs, hbs⟩ := compile_ok_content token simple_latex w c hlc
    injection hp.symm.trans hcc with hq
    rw [hbs, ← hq]

/-- C8 witness: in the all-success world, `generate_cv` streams exactly
the four bytes the compiler returned. -/
theorem c8_pdf_passthrough_witness :
    wAllOk.compileCall = .ok ⟨200, [37, 80, 68, 70], "pdf"⟩ ∧
    (generate_cv (some "t") (.ok (some "doc")) wAllOk).1 =
      .ok ⟨[37, 80, 68, 70], "application/pdf", "attachment; filename=CV.pdf"⟩ ∧
    StreamResp.content ⟨[37, 80, 68, 70], "application/pdf", "attachment; filename=CV.pdf"⟩ =
      CompileResp.content ⟨200, [37, 80, 68, 70], "pdf"⟩ :=
  ⟨rfl, rfl,
   (c8_pdf_passthrough (some "t") (.ok (some "doc")) wAllOk
       ⟨200, [37, 80, 68, 70], "pdf"⟩ rfl).1
     ⟨[37, 80, 68, 70], "application/pdf", "attachment; filename=CV.pdf"⟩ rfl⟩

/-- C9 counterexample: a configuration error inside `test_compile` is
returned as a normal (success) JSON body with an error string, and a
raised RPC exception inside `debug_latex` likewise — neither handler
surfaces the error as an HTTP error response. -/
theorem c9_error_not_http_error_counterexample :
    (test_compile none wAllOk).1 = .ok (.errJson "500: GITHUB_TOKEN no configurado") ∧
    (∀ e, (test_compile none wAllOk).1 ≠ .error e) ∧
    debug_latex (.exc (.other "boom")) = .ok (.failure "boom") ∧
    (∀ e, debug_latex (.exc (.other "boom")) ≠ .error e) := by
  refine ⟨rfl, ?_, rfl, ?_⟩ <;> intro e h <;> exact Except.noConfusion h

/-- C9 amended: every error is caught at the handler boundary and carried
in a human-readable string, but only `generate_cv` surfaces it as an HTTP
error response (500 with a detail string); `test_compile` and
`debug_latex` always return a normal JSON value carrying the error
string instead. -/
theorem c9_error_surfacing_per_handler (token : Option String) (rpc : Outcome (Option String)) (w : World) :
    (∀ e tr, generate_cv_body token rpc w = (.error e, tr) →
      (generate_cv token rpc w).1 = .error (.http 500 (excStr e))) ∧
    (∀ e tr, compile_latex_to_pdf token simple_latex w = (.error e, tr) →
      (test_compile token w).1 = .ok (.errJson (excStr e))) ∧
    (∀ e, rpc = .exc e → debug_latex rpc = .ok (.failure (excStr e))) ∧
    (∃ v, (test_compile token w).1 = .ok v) ∧
    (∃ v, debug_latex rpc = .ok v) := by
  refine ⟨?_, ?_, ?_, ?_, ?_⟩
  · intro e tr h
    simp [generate_cv, h]
  · intro e tr h
    simp [test_compile, h]
  · intro e h
    rw [h]
    rfl
  · cases hcp : compile_latex_to_pdf token simple_latex w with
    | mk res tr =>
      cases res with
      | ok c =>
        exact ⟨.pdf c "application/pdf" "attachment; filename=test.pdf",
          by simp [test_compile, hcp]⟩
      | error e => exact ⟨.errJson (excStr e), by simp [test_compile, hcp]⟩
  · cases rpc with
    | ok data => exact ⟨_, rfl⟩
    | exc e => exact ⟨_, rfl⟩

/-- C9 amended witness: the missing-token error inside `test_compile` is
returned inside a normal JSON body. -/
theorem c9_error_surfacing_witness :
    (test_compile none wAllOk).1 =
      .ok (.errJson (excStr (.http 500 "GITHUB_TOKEN no configurado"))) :=
  (c9_error_surfacing_per_handler none (.ok none) wAllOk).2.1
    (.http 500 "GITHUB_TOKEN no configurado") [] rfl

/-- C10: whatever exception escapes the body of `generate_cv`, the
handler re-raises it as HTTP 500 with detail equal to the string form of
the caught exception. -/
theorem c10_generate_cv_rewraps_errors_as_500 (token : Option String) (rpc : Outcome (Option String)) (w : World)
    (e : Exc) (tr : List Event) (h : generate_cv_body token rpc w = (.error e, tr)) :
    generate_cv token rpc w = (.error (.http 500 (excStr e)), tr) := by
  simp [generate_cv, h]

/-- C10 witness: the compilation error raised with status 400 is
re-raised by `generate_cv` as status 500, its detail the string form
"400: ..." of the original exception. -/
theorem c10_generate_cv_rewraps_witness :
    generate_cv_body (some "t") (.ok (some "doc")) wCompile500 =
      (.error (.http 400 "LaTeX compilation failed. Status: 500."),
       [Event.postGist "doc", Event.sleepEv 2, Event.getRaw "https://r",
        Event.getCompile (compileUrl "https://r"), Event.deleteGist "gid1"]) ∧
    generate_cv (some "t") (.ok (some "doc")) wCompile500 =
      (.error (.http 500 "400: LaTeX compilation failed. Status: 500."),
       [Event.postGist "doc", Event.sleepEv 2, Event.getRaw "https://r",
        Event.getCompile (compileUrl "https://r"), Event.deleteGist "gid1"]) :=
  ⟨rfl,
   c10_generate_cv_rewraps_errors_as_500 (some "t") (.ok (some "doc")) wCompile500
     (.http 400 "LaTeX compilation failed. Status: 500.")
     [Event.postGist "doc", Event.sleepEv 2, Event.getRaw "https://r",
      Event.getCompile (compileUrl "https://r"), Event.deleteGist "gid1"] rfl⟩
